import Mathlib

/-!
Shallow embedding of the React-Basic-Movie-App search-tracking code:
`updateSearchCount` and `getTrendingMovies` from `src/react-2hr-cc/src/appwrite.js`,
and `fetchMovies` from `src/react-2hr-cc/src/App.jsx`.

The remote Appwrite document store is modelled as a list of documents plus an
error-injection record (`StoreOutcome`) saying which of the three remote
operations (listDocuments, updateDocument, createDocument) throws.  The TMDb
fetch is modelled by a `FetchOutcome` describing whether the request threw,
its HTTP `ok` flag, and the parsed JSON body.  JavaScript truthiness on the
relevant string values (empty string is falsy) is modelled explicitly.
-/

namespace MovieApp

/-- Constant `TMDB_IMAGE_BASE_URL` from appwrite.js. -/
def TMDB_IMAGE_BASE_URL : String := "https://image.tmdb.org/t/p/w500"

/-- Constant `API_BASE_URL` from App.jsx. -/
def API_BASE_URL : String := "https://api.themoviedb.org/3/"

/-- A movie summary as consumed by `updateSearchCount`: only `id` and
`poster_path` are read.  A JSON `null` or absent `poster_path` is `none`. -/
structure Movie where
  id : Nat
  poster_path : Option String
deriving DecidableEq

/-- A document of the Appwrite collection: the stored SearchRecord.
`docId` is the store-assigned `$id` string. -/
structure Document where
  docId : String
  searchTerm : String
  count : Nat
  movie_id : Nat
  poster_url : Option String
deriving DecidableEq

/-- Error injection for one call to `updateSearchCount`: for each remote
operation, `some e` means the Appwrite SDK call rejects with error `e`. -/
structure StoreOutcome where
  listErr : Option String
  updateErr : Option String
  createErr : Option String
deriving DecidableEq

/-- The all-successful outcome: no remote operation throws. -/
def okOutcome : StoreOutcome := { listErr := none, updateErr := none, createErr := none }

/-- The filter sent to `listDocuments`: `Query.equal("searchTerm", searchTerm)`,
exact string equality, no normalization. -/
def matchesTerm (term : String) (d : Document) : Bool := d.searchTerm == term

/-- The `poster_url` value computed in `createDocument`:
`movie.poster_path ? BASE/path : null`, with JS truthiness (null, absent and
the empty string are falsy). -/
def posterUrlOf (movie : Movie) : Option String :=
  match movie.poster_path with
  | some p => if p == "" then none else some (TMDB_IMAGE_BASE_URL ++ "/" ++ p)
  | none => none

/-- The document created on the not-found branch of `updateSearchCount`. -/
def newDoc (term : String) (movie : Movie) (fresh : String) : Document :=
  { docId := fresh, searchTerm := term, count := 1,
    movie_id := movie.id, poster_url := posterUrlOf movie }

/-- The effect of `updateDocument(doc.id, \x7b count: doc.count + 1 \x7d)` on one
stored document: the store bumps the count of the document with that id. -/
def bumpIf (i : String) (d : Document) : Document :=
  if d.docId == i then { d with count := d.count + 1 } else d

/-- One console line of the catch block in appwrite.js:
`console.error("Appwrite Error:", error)`. -/
def appwriteLog (e : String) : List String := ["Appwrite Error: " ++ e]

/-- Embedding of `updateSearchCount(searchTerm, movie)` from appwrite.js.
`db` is the collection state, `fresh` the id produced by `ID.unique()`, `oc`
the error injection.  Returns the new collection state and the console log.
The try block lists documents matching the term exactly, then either updates
the first match with `count + 1` or creates a new document with `count = 1`;
any error is caught and logged, and the function returns normally. -/
def updateSearchCount (searchTerm : String) (movie : Movie) (db : List Document)
    (fresh : String) (oc : StoreOutcome) : List Document × List String :=
  match oc.listErr with
  | some e => (db, appwriteLog e)
  | none =>
    match db.filter (matchesTerm searchTerm) with
    | doc :: _ =>
      match oc.updateErr with
      | some e => (db, appwriteLog e)
      | none => (db.map (bumpIf doc.docId), [])
    | [] =>
      match oc.createErr with
      | some e => (db, appwriteLog e)
      | none => (db ++ [newDoc searchTerm movie fresh], [])

/-- Ordering requested from the store by `Query.orderDesc("count")`. -/
def countGe (a b : Document) : Bool := b.count ≤ a.count

/-- The document list the store returns for
`listDocuments(.., [Query.limit(5), Query.orderDesc("count")])`: the
collection sorted by count descending (ties in native order, here modelled by
the stable sort) truncated to 5. -/
def listDocumentsTrending (db : List Document) : List Document :=
  (db.mergeSort countGe).take 5

/-- Embedding of `getTrendingMovies()` from appwrite.js.  The remote call
either yields the collection `db` or rejects with an error `e`; on success the
documents are returned, on error the function logs and returns `undefined`
(modelled as `none`). -/
def getTrendingMovies (st : Except String (List Document)) :
    Option (List Document) × List String :=
  match st with
  | .ok db => (some (listDocumentsTrending db), [])
  | .error e => (none, appwriteLog e)

/-- UTF-8 bytes of a Unicode code point, as used by JS `encodeURI`. -/
def utf8Bytes (n : Nat) : List Nat :=
  if n < 128 then [n]
  else if n < 2048 then [192 + n / 64, 128 + n % 64]
  else if n < 65536 then [224 + n / 4096, 128 + (n / 64) % 64, 128 + n % 64]
  else [240 + n / 262144, 128 + (n / 4096) % 64, 128 + (n / 64) % 64, 128 + n % 64]

/-- Uppercase hexadecimal digit. -/
def hexDigitChar (n : Nat) : Char :=
  if n < 10 then Char.ofNat (48 + n) else Char.ofNat (55 + n)

/-- Percent-encoding of one byte, uppercase hex as produced by `encodeURI`. -/
def percentEncode (b : Nat) : String :=
  String.mk ['%', hexDigitChar (b / 16), hexDigitChar (b % 16)]

/-- Characters left unescaped by JS `encodeURI`: ASCII alphanumerics and
the characters of the URI reserved and unreserved sets (including the
apostrophe, code 39). -/
def isUnescapedInURI (c : Char) : Bool :=
  c.isAlphanum || c == ';' || c == ',' || c == '/' || c == '?' || c == ':' ||
    c == '@' || c == '&' || c == '=' || c == '+' || c == '$' || c == '-' ||
    c == '_' || c == '.' || c == '!' || c == '~' || c == '*' ||
    c == Char.ofNat 39 || c == '(' || c == ')' || c == '#'

/-- JS `encodeURI`: every character outside the unescaped set is replaced by
the percent-encoding of its UTF-8 bytes. -/
def encodeURI (s : String) : String :=
  String.join (s.data.map (fun c =>
    if isUnescapedInURI c then String.singleton c
    else String.join ((utf8Bytes c.toNat).map percentEncode)))

/-- The endpoint selection in `fetchMovies`:
`query ? BASE/search/movie?query=encodeURI(query) : BASE/discover/...`,
with JS truthiness on the query string. -/
def endpointFor (query : String) : String :=
  if query == "" then API_BASE_URL ++ "/discover/movie?sort_by=popularity.desc"
  else API_BASE_URL ++ "/search/movie?query=" ++ encodeURI query

/-- The three React state cells touched by `fetchMovies`. -/
structure AppState where
  errorMessage : String
  movieList : List Movie
  isLoading : Bool
deriving DecidableEq

/-- The parsed JSON body: the fields read by `fetchMovies`.  `Response` and
`Error` are the OMDB-style safeguard fields; `results` is `none` when the
body has no `results` array (so that `data.results.length` would throw). -/
structure ApiBody where
  Response : Option String
  Error : Option String
  results : Option (List Movie)
deriving DecidableEq

/-- Outcome of `fetch` plus `response.json()`: either some step before the
body checks threw (network error, or the `!response.ok` throw models an HTTP
401/500, or json parse failure), or a body was obtained with HTTP flag `ok`. -/
inductive FetchOutcome where
  | throws (e : String)
  | respond (ok : Bool) (body : ApiBody)
deriving DecidableEq

/-- The static message set by the catch block of `fetchMovies`. -/
def staticFetchError : String := "Error fetching movies, please try again later."

/-- The default message of the OMDB-style safeguard branch. -/
def defaultFetchError : String := "Failed to fetch movies"

/-- JS `a || b` on a possibly-absent string: absent and empty are falsy. -/
def jsOr (o : Option String) (d : String) : String :=
  match o with
  | some s => if s == "" then d else s
  | none => d

/-- The try/catch part of `fetchMovies`, acting on the state after the
initial `setIsLoading(true); setErrorMessage("")`.  Returns the updated state
and the list of `updateSearchCount` invocations (query, first result).
The branch for a non-empty query with an absent `results` array models the
TypeError thrown by `data.results.length`, caught by the catch block; note
`setMovieList(data.results || [])` has already run at that point. -/
def fetchTryBody (query : String) (outcome : FetchOutcome) (s : AppState) :
    AppState × List (String × Movie) :=
  match outcome with
  | .throws _ => ({ s with errorMessage := staticFetchError }, [])
  | .respond ok body =>
    if !ok then
      ({ s with errorMessage := staticFetchError }, [])
    else if body.Response == some "False" then
      ({ s with errorMessage := jsOr body.Error defaultFetchError, movieList := [] }, [])
    else
      let s1 := { s with movieList := body.results.getD [] }
      if query == "" then
        (s1, [])
      else
        match body.results with
        | none => ({ s1 with errorMessage := staticFetchError }, [])
        | some [] => (s1, [])
        | some (m :: _) => (s1, [(query, m)])

/-- Embedding of `fetchMovies(query)` from App.jsx: set loading, clear the
error, run the try/catch body, and finally clear the loading flag. -/
def fetchMovies (query : String) (outcome : FetchOutcome) (s0 : AppState) :
    AppState × List (String × Movie) :=
  let s := { s0 with isLoading := true, errorMessage := "" }
  let r := fetchTryBody query outcome s
  ({ r.1 with isLoading := false }, r.2)

/-- A run of sequential successful tracked searches for one term: each step
calls `updateSearchCount` with a movie and a fresh id, no remote error. -/
def runSearches (term : String) : List (Movie × String) → List Document → List Document
  | [], db => db
  | (m, f) :: rest, db =>
    runSearches term rest (updateSearchCount term m db f okOutcome).1

/-- Concrete movie with a poster, used by witnesses. -/
def mv1 : Movie := { id := 7, poster_path := some "abc.jpg" }

/-- Concrete movie without a poster, used by witnesses. -/
def mv2 : Movie := { id := 8, poster_path := none }

/-- Concrete one-document store, used by witnesses. -/
def db1 : List Document :=
  [{ docId := "x1", searchTerm := "batman", count := 3, movie_id := 10, poster_url := none }]

/-- Claim C3: `updateSearchCount` queries the store for documents whose
`searchTerm` equals the given term exactly (no normalization); if a document
is found it writes that document back with its count incremented by 1; if
none is found it creates a new document with count 1, `movie_id = movie.id`
and `poster_url` derived from `movie.poster_path` (null when absent). -/
theorem updateSearchCount_algorithm (term : String) (movie : Movie)
    (db : List Document) (fresh : String) :
    (∀ doc rest, db.filter (matchesTerm term) = doc :: rest →
      updateSearchCount term movie db fresh okOutcome = (db.map (bumpIf doc.docId), [])
      ∧ bumpIf doc.docId doc = { doc with count := doc.count + 1 })
    ∧ (db.filter (matchesTerm term) = [] →
      updateSearchCount term movie db fresh okOutcome =
        (db ++ [{ docId := fresh, searchTerm := term, count := 1,
                  movie_id := movie.id, poster_url := posterUrlOf movie }], []))
    ∧ (∀ d : Document, matchesTerm term d = true ↔ d.searchTerm = term) := by
  refine ⟨?_, ?_, ?_⟩
  · intro doc rest hf
    refine ⟨?_, ?_⟩
    · simp [updateSearchCount, okOutcome, hf]
    · simp [bumpIf]
  · intro hf
    simp [updateSearchCount, okOutcome, hf, newDoc]
  · intro d
    simp [matchesTerm]

/-- Witness for C3: both branches at concrete inputs, including the exactness
of the match (a query for Batman does not match the stored batman). -/
theorem updateSearchCount_algorithm_witness :
    updateSearchCount "batman" mv1 db1 "x2" okOutcome =
      ([{ docId := "x1", searchTerm := "batman", count := 4, movie_id := 10,
          poster_url := none }], [])
    ∧ updateSearchCount "Batman" mv1 db1 "x2" okOutcome =
      (db1 ++ [{ docId := "x2", searchTerm := "Batman", count := 1, movie_id := 7,
                 poster_url := posterUrlOf mv1 }], []) := by
  constructor
  · exact (((updateSearchCount_algorithm "batman" mv1 db1 "x2").1
      { docId := "x1", searchTerm := "batman", count := 3, movie_id := 10,
        poster_url := none } [] (by decide)).1).trans (by decide)
  · exact ((updateSearchCount_algorithm "Batman" mv1 db1 "x2").2.1 (by decide)).trans
      (by decide)

/-- Claim C8: in `fetchMovies`, the empty query selects the discovery endpoint
sorted by popularity descending, and every non-empty query selects the
search endpoint with the query URL-encoded; the two cases are exhaustive and
exclusive. -/
theorem endpointFor_cases (query : String) :
    (query = "" → endpointFor query = API_BASE_URL ++ "/discover/movie?sort_by=popularity.desc")
    ∧ (query ≠ "" → endpointFor query = API_BASE_URL ++ "/search/movie?query=" ++ encodeURI query)
    ∧ (query = "" ∨ query ≠ "") ∧ ¬ (query = "" ∧ query ≠ "") := by
  refine ⟨?_, ?_, Decidable.em _, ?_⟩
  · intro h
    subst h
    rfl
  · intro h
    simp [endpointFor, h]
  · rintro ⟨h1, h2⟩
    exact h2 h1

/-- Witness for C8: the two endpoints at concrete queries; the space of a
two-word query is percent-encoded. -/
theorem endpointFor_cases_witness :
    endpointFor "" = "https://api.themoviedb.org/3//discover/movie?sort_by=popularity.desc"
    ∧ endpointFor "batman movie" =
      "https://api.themoviedb.org/3//search/movie?query=batman%20movie" := by
  constructor
  · exact ((endpointFor_cases "").1 rfl).trans (by decide)
  · exact ((endpointFor_cases "batman movie").2.1 (by decide)).trans (by decide)

/-- Claim C9: every execution of `fetchMovies` ends with `isLoading = false`,
whatever the query, the fetch outcome (success, zero results, malformed body,
thrown error) and the starting state: the finally block always runs. -/
theorem fetchMovies_resets_isLoading (query : String) (outcome : FetchOutcome)
    (s0 : AppState) : (fetchMovies query outcome s0).1.isLoading = false := rfl

/-- Claim C2: for every input and every error the remote store raises during
any of its operations (list, update, create), `updateSearchCount` catches the
error, logs it, and returns normally (totality of the embedding); the console
log is empty or a single Appwrite Error line, and in each of the three
injection cases the function returns the store unchanged with the error
logged. -/
theorem updateSearchCount_swallows_errors (term : String) (movie : Movie)
    (db : List Document) (fresh : String) (oc : StoreOutcome) :
    ((updateSearchCount term movie db fresh oc).2 = [] ∨
      ∃ e, (updateSearchCount term movie db fresh oc).2 = appwriteLog e)
    ∧ (∀ e, oc.listErr = some e →
        updateSearchCount term movie db fresh oc = (db, appwriteLog e))
    ∧ (∀ e doc rest, oc.listErr = none → db.filter (matchesTerm term) = doc :: rest →
        oc.updateErr = some e →
        updateSearchCount term movie db fresh oc = (db, appwriteLog e))
    ∧ (∀ e, oc.listErr = none → db.filter (matchesTerm term) = [] →
        oc.createErr = some e →
        updateSearchCount term movie db fresh oc = (db, appwriteLog e)) := by
  obtain ⟨le, ue, ce⟩ := oc
  refine ⟨?_, ?_, ?_, ?_⟩
  · cases le with
    | some e => exact Or.inr ⟨e, rfl⟩
    | none =>
      cases hf : db.filter (matchesTerm term) with
      | nil =>
        cases ce with
        | some e => exact Or.inr ⟨e, by simp [updateSearchCount, hf]⟩
        | none => exact Or.inl (by simp [updateSearchCount, hf])
      | cons doc rest =>
        cases ue with
        | some e => exact Or.inr ⟨e, by simp [updateSearchCount, hf]⟩
        | none => exact Or.inl (by simp [updateSearchCount, hf])
  · intro e he
    simp only at he
    subst he
    rfl
  · intro e doc rest hle hf hue
    simp only at hle hue
    subst hle
    subst hue
    simp [updateSearchCount, hf]
  · intro e hle hf hce
    simp only at hle hce
    subst hle
    subst hce
    simp [updateSearchCount, hf]

/-- Witness for C2: each of the three remote operations failing at a concrete
input yields a normal return with the error logged and the store unchanged. -/
theorem updateSearchCount_swallows_errors_witness :
    updateSearchCount "batman" mv1 db1 "x9"
      { listErr := some "boom", updateErr := none, createErr := none } =
      (db1, appwriteLog "boom")
    ∧ updateSearchCount "batman" mv1 db1 "x9"
      { listErr := none, updateErr := some "denied", createErr := none } =
      (db1, appwriteLog "denied")
    ∧ updateSearchCount "robin" mv1 db1 "x9"
      { listErr := none, updateErr := none, createErr := some "quota" } =
      (db1, appwriteLog "quota") := by
  refine ⟨?_, ?_, ?_⟩
  · exact (updateSearchCount_swallows_errors "batman" mv1 db1 "x9" _).2.1 "boom" rfl
  · exact (updateSearchCount_swallows_errors "batman" mv1 db1 "x9" _).2.2.1 "denied"
      { docId := "x1", searchTerm := "batman", count := 3, movie_id := 10,
        poster_url := none } [] rfl (by decide) rfl
  · exact (updateSearchCount_swallows_errors "robin" mv1 db1 "x9" _).2.2.2 "quota"
      rfl (by decide) rfl

/-- Claim C7: the document created by `updateSearchCount` has
`poster_url = null` whenever the poster path of the movie is null or absent,
and the TMDB image base URL joined with the path whenever the path is a
non-empty string. -/
theorem updateSearchCount_poster_url (db : List Document) (term : String)
    (movie : Movie) (fresh : String)
    (h : db.filter (matchesTerm term) = []) :
    ∃ d : Document, (updateSearchCount term movie db fresh okOutcome).1 = db ++ [d]
      ∧ d.poster_url = posterUrlOf movie
      ∧ (movie.poster_path = none → d.poster_url = none)
      ∧ (∀ p, movie.poster_path = some p → p ≠ "" →
          d.poster_url = some (TMDB_IMAGE_BASE_URL ++ "/" ++ p)) := by
  refine ⟨newDoc term movie fresh, ?_, rfl, ?_, ?_⟩
  · simp [updateSearchCount, okOutcome, h]
  · intro hp
    simp [newDoc, posterUrlOf, hp]
  · intro p hp hne
    simp [newDoc, posterUrlOf, hp, hne]

/-- Witness for C7: a movie without a poster path is stored with a null
`poster_url`, one with a non-empty path with the joined URL. -/
theorem updateSearchCount_poster_url_witness :
    (∃ d : Document, (updateSearchCount "robin" mv2 db1 "x3" okOutcome).1 = db1 ++ [d]
      ∧ d.poster_url = none)
    ∧ (∃ d : Document, (updateSearchCount "robin" mv1 db1 "x3" okOutcome).1 = db1 ++ [d]
      ∧ d.poster_url = some (TMDB_IMAGE_BASE_URL ++ "/" ++ "abc.jpg")) := by
  constructor
  · obtain ⟨d, h1, _, h3, _⟩ := updateSearchCount_poster_url db1 "robin" mv2 "x3" (by decide)
    exact ⟨d, h1, h3 rfl⟩
  · obtain ⟨d, h1, _, _, h4⟩ := updateSearchCount_poster_url db1 "robin" mv1 "x3" (by decide)
    exact ⟨d, h1, h4 "abc.jpg" rfl (by decide)⟩

/-- Claim C4: `getTrendingMovies` returns, on success, at most 5 documents
ordered by count descending, and on any remote-store error logs the error and
returns `undefined` (no documents) instead of raising. -/
theorem getTrendingMovies_contract (st : Except String (List Document)) :
    (∀ db, st = .ok db → ∃ l, getTrendingMovies st = (some l, [])
      ∧ l.length ≤ 5 ∧ l.Pairwise (fun a b => b.count ≤ a.count))
    ∧ (∀ e, st = .error e → getTrendingMovies st = (none, appwriteLog e)) := by
  constructor
  · rintro db rfl
    refine ⟨listDocumentsTrending db, rfl, List.length_take_le 5 _, ?_⟩
    have hs : (db.mergeSort countGe).Pairwise (fun a b => countGe a b = true) := by
      apply List.sorted_mergeSort
      · intro a b c h1 h2
        simp only [countGe, decide_eq_true_eq] at h1 h2 ⊢
        omega
      · intro a b
        simp only [countGe, Bool.or_eq_true, decide_eq_true_eq]
        omega
    have hs2 : (db.mergeSort countGe).Pairwise (fun a b => b.count ≤ a.count) :=
      hs.imp (fun h => by simpa [countGe] using h)
    exact hs2.sublist (List.take_sublist 5 _)
  · rintro e rfl
    rfl

/-- Concrete seven-document store, used by the trending witness. -/
def db7 : List Document :=
  [{ docId := "a", searchTerm := "t1", count := 2, movie_id := 1, poster_url := none },
   { docId := "b", searchTerm := "t2", count := 9, movie_id := 2, poster_url := none },
   { docId := "c", searchTerm := "t3", count := 4, movie_id := 3, poster_url := none },
   { docId := "d", searchTerm := "t4", count := 9, movie_id := 4, poster_url := none },
   { docId := "e", searchTerm := "t5", count := 1, movie_id := 5, poster_url := none },
   { docId := "f", searchTerm := "t6", count := 7, movie_id := 6, poster_url := none },
   { docId := "g", searchTerm := "t7", count := 3, movie_id := 7, poster_url := none }]

/-- Witness for C4: the contract applied to a concrete seven-document store
and to a concrete store failure. -/
theorem getTrendingMovies_contract_witness :
    (∃ l, getTrendingMovies (.ok db7) = (some l, [])
      ∧ l.length ≤ 5 ∧ l.Pairwise (fun a b => b.count ≤ a.count))
    ∧ getTrendingMovies (.error "boom") = (none, appwriteLog "boom") := by
  constructor
  · exact (getTrendingMovies_contract (.ok db7)).1 db7 rfl
  · exact (getTrendingMovies_contract (.error "boom")).2 "boom" rfl

theorem matchesTerm_bumpIf (term i : String) (d : Document) :
    matchesTerm term (bumpIf i d) = matchesTerm term d := by
  simp only [bumpIf, matchesTerm]
  split <;> rfl

theorem bumpIf_docId (i : String) (d : Document) : (bumpIf i d).docId = d.docId := by
  simp only [bumpIf]
  split <;> rfl

theorem bumpIf_searchTerm (i : String) (d : Document) :
    (bumpIf i d).searchTerm = d.searchTerm := by
  simp only [bumpIf]
  split <;> rfl

theorem bumpIf_self (d : Document) :
    bumpIf d.docId d = { d with count := d.count + 1 } := by
  simp [bumpIf]

theorem filter_map_bumpIf (term i : String) (db : List Document) :
    (db.map (bumpIf i)).filter (matchesTerm term) =
      (db.filter (matchesTerm term)).map (bumpIf i) := by
  rw [List.filter_map]
  congr 1
  apply List.filter_congr
  intro d _
  exact matchesTerm_bumpIf term i d

theorem updateSearchCount_found (term : String) (movie : Movie) (db : List Document)
    (fresh : String) (doc : Document) (rest : List Document)
    (hf : db.filter (matchesTerm term) = doc :: rest) :
    (updateSearchCount term movie db fresh okOutcome).1 = db.map (bumpIf doc.docId) := by
  simp [updateSearchCount, okOutcome, hf]

theorem runSearches_single (term : String) (steps : List (Movie × String)) :
    ∀ (db : List Document) (doc : Document),
    db.filter (matchesTerm term) = [doc] →
    ∃ doc2, (runSearches term steps db).filter (matchesTerm term) = [doc2]
      ∧ doc2.count = doc.count + steps.length
      ∧ doc2.searchTerm = doc.searchTerm := by
  induction steps with
  | nil =>
    intro db doc h
    exact ⟨doc, by simpa [runSearches] using h, rfl, rfl⟩
  | cons step rest ih =>
    intro db doc h
    obtain ⟨m, f⟩ := step
    have hstep : (updateSearchCount term m db f okOutcome).1 = db.map (bumpIf doc.docId) :=
      updateSearchCount_found term m db f doc [] h
    have hfilter : (db.map (bumpIf doc.docId)).filter (matchesTerm term)
        = [{ doc with count := doc.count + 1 }] := by
      rw [filter_map_bumpIf, h]
      simp [bumpIf]
    obtain ⟨doc2, h1, h2, h3⟩ := ih (db.map (bumpIf doc.docId))
      { doc with count := doc.count + 1 } hfilter
    refine ⟨doc2, ?_, ?_, h3⟩
    · simp only [runSearches]
      rw [hstep]
      exact h1
    · simp only [List.length_cons]
      simp only at h2
      omega

theorem updateSearchCount_preserves (term : String) (movie : Movie)
    (db : List Document) (fresh : String) (oc : StoreOutcome) (d : Document)
    (hd : d ∈ db) :
    ∃ d2, d2 ∈ (updateSearchCount term movie db fresh oc).1
      ∧ d2.docId = d.docId ∧ d2.searchTerm = d.searchTerm := by
  obtain ⟨le, ue, ce⟩ := oc
  cases le with
  | some e => exact ⟨d, by simpa [updateSearchCount] using hd, rfl, rfl⟩
  | none =>
    cases hf : db.filter (matchesTerm term) with
    | nil =>
      cases ce with
      | some e => exact ⟨d, by simp [updateSearchCount, hf]; exact hd, rfl, rfl⟩
      | none => exact ⟨d, by simp [updateSearchCount, hf, hd], rfl, rfl⟩
    | cons doc rest =>
      cases ue with
      | some e => exact ⟨d, by simp [updateSearchCount, hf]; exact hd, rfl, rfl⟩
      | none =>
        refine ⟨bumpIf doc.docId d, ?_, bumpIf_docId doc.docId d,
          bumpIf_searchTerm doc.docId d⟩
        simp only [updateSearchCount, hf]
        exact List.mem_map_of_mem _ hd

theorem runSearches_preserves (term : String) (steps : List (Movie × String)) :
    ∀ (db : List Document) (d : Document), d ∈ db →
    ∃ d2, d2 ∈ runSearches term steps db
      ∧ d2.docId = d.docId ∧ d2.searchTerm = d.searchTerm := by
  induction steps with
  | nil =>
    intro db d hd
    exact ⟨d, by simpa [runSearches] using hd, rfl, rfl⟩
  | cons step rest ih =>
    intro db d hd
    obtain ⟨m, f⟩ := step
    obtain ⟨d1, h1, h2, h3⟩ := updateSearchCount_preserves term m db f okOutcome d hd
    obtain ⟨d2, g1, g2, g3⟩ := ih (updateSearchCount term m db f okOutcome).1 d1 h1
    exact ⟨d2, by simpa [runSearches] using g1, g2.trans h2, g3.trans h3⟩

/-- Claim C1: starting from a store with no document for a term, a run of n
sequential successful tracked searches leaves exactly one document whose
`searchTerm` is the term and whose count is n; and no call of
`updateSearchCount` (with any outcome) ever deletes a document: every stored
document survives with its id and term. -/
theorem runSearches_unique_record (term : String) (db : List Document)
    (steps : List (Movie × String))
    (h0 : db.filter (matchesTerm term) = [])
    (hn : steps ≠ []) :
    (∃ doc, (runSearches term steps db).filter (matchesTerm term) = [doc]
      ∧ doc.searchTerm = term ∧ doc.count = steps.length)
    ∧ (∀ (term2 : String) (movie : Movie) (db2 : List Document) (fresh : String)
        (oc : StoreOutcome) (d : Document), d ∈ db2 →
        ∃ d2, d2 ∈ (updateSearchCount term2 movie db2 fresh oc).1
          ∧ d2.docId = d.docId ∧ d2.searchTerm = d.searchTerm) := by
  constructor
  · cases steps with
    | nil => exact absurd rfl hn
    | cons step rest =>
      obtain ⟨m, f⟩ := step
      have hstep : (updateSearchCount term m db f okOutcome).1 = db ++ [newDoc term m f] := by
        simp [updateSearchCount, okOutcome, h0]
      have hfilter : (db ++ [newDoc term m f]).filter (matchesTerm term)
          = [newDoc term m f] := by
        rw [List.filter_append, h0]
        simp [newDoc, matchesTerm]
      obtain ⟨doc2, h1, h2, h3⟩ := runSearches_single term rest
        (db ++ [newDoc term m f]) (newDoc term m f) hfilter
      refine ⟨doc2, ?_, h3, ?_⟩
      · simp only [runSearches]
        rw [hstep]
        exact h1
      · simp only [newDoc, List.length_cons] at h2 ⊢
        omega
  · exact fun term2 movie db2 fresh oc d hd =>
      updateSearchCount_preserves term2 movie db2 fresh oc d hd

/-- Witness for C1: two tracked searches for robin against a store holding an
unrelated batman document end with one robin document of count 2. -/
theorem runSearches_unique_record_witness :
    ∃ doc, (runSearches "robin" [(mv1, "s1"), (mv2, "s2")] db1).filter
        (matchesTerm "robin") = [doc]
      ∧ doc.searchTerm = "robin" ∧ doc.count = 2 := by
  obtain ⟨doc, h1, h2, h3⟩ :=
    (runSearches_unique_record "robin" db1 [(mv1, "s1"), (mv2, "s2")]
      (by decide) (by decide)).1
  exact ⟨doc, h1, h2, h3⟩

/-- Claim C10: when the store already holds several documents matching the
term (the documented read-then-write race), `updateSearchCount` bumps only
the first match of the lookup, leaves every other document (matching or not)
unchanged in place, and creates nothing: the result is the store with exactly
the first-match position replaced by its count-incremented copy. -/
theorem updateSearchCount_first_of_duplicates (db : List Document) (term : String)
    (movie : Movie) (fresh : String) (doc : Document) (rest : List Document)
    (hnd : (db.map (fun d => d.docId)).Nodup)
    (hf : db.filter (matchesTerm term) = doc :: rest)
    (_hdup : rest ≠ []) :
    ∃ pre post, db = pre ++ doc :: post
      ∧ (updateSearchCount term movie db fresh okOutcome).1 =
          pre ++ { doc with count := doc.count + 1 } :: post
      ∧ (updateSearchCount term movie db fresh okOutcome).1.length = db.length := by
  have hupd : (updateSearchCount term movie db fresh okOutcome).1 =
      db.map (bumpIf doc.docId) :=
    updateSearchCount_found term movie db fresh doc rest hf
  obtain ⟨pre, post, hdb, hpre, hpa, hrest⟩ := List.filter_eq_cons_iff.mp hf
  subst hdb
  rw [List.map_append, List.map_cons] at hnd
  obtain ⟨hnd1, hnd2, hdisj⟩ := List.nodup_append.mp hnd
  have hpre2 : ∀ d ∈ pre, d.docId ≠ doc.docId := by
    intro d hd heq
    exact hdisj (List.mem_map_of_mem _ hd) (by simp [heq])
  have hpost2 : ∀ d ∈ post, d.docId ≠ doc.docId := by
    intro d hd heq
    have := (List.nodup_cons.mp hnd2).1
    exact this (by simpa [heq.symm] using List.mem_map_of_mem (fun x => x.docId) hd)
  refine ⟨pre, post, rfl, ?_, by rw [hupd, List.length_map]⟩
  rw [hupd, List.map_append, List.map_cons, bumpIf_self]
  have hpre3 : pre.map (bumpIf doc.docId) = pre := by
    have h1 : pre.map (bumpIf doc.docId) = pre.map id :=
      List.map_congr_left fun d hd => by simp [bumpIf, hpre2 d hd]
    rw [h1, List.map_id]
  have hpost3 : post.map (bumpIf doc.docId) = post := by
    have h1 : post.map (bumpIf doc.docId) = post.map id :=
      List.map_congr_left fun d hd => by simp [bumpIf, hpost2 d hd]
    rw [h1, List.map_id]
  rw [hpre3, hpost3]

/-- Concrete first duplicate document, used by the duplicates witness. -/
def dDup1 : Document :=
  { docId := "x1", searchTerm := "batman", count := 2, movie_id := 10, poster_url := none }

/-- Concrete second duplicate document, used by the duplicates witness. -/
def dDup2 : Document :=
  { docId := "x2", searchTerm := "batman", count := 5, movie_id := 11, poster_url := none }

/-- Concrete store holding two documents for the same term. -/
def dbDup : List Document := [dDup1, dDup2]

/-- Witness for C10: with two batman documents stored, only the first is
bumped, the second stays at count 5, and nothing is created. -/
theorem updateSearchCount_first_of_duplicates_witness :
    ∃ pre post, dbDup = pre ++ dDup1 :: post
      ∧ (updateSearchCount "batman" mv1 dbDup "x9" okOutcome).1 =
          pre ++ { dDup1 with count := dDup1.count + 1 } :: post
      ∧ (updateSearchCount "batman" mv1 dbDup "x9" okOutcome).1.length = dbDup.length :=
  updateSearchCount_first_of_duplicates dbDup "batman" mv1 "x9" dDup1 [dDup2]
    (by decide) (by decide) (by decide)

/-- A body with an empty results array: HTTP success, zero results. -/
def bodyZero : ApiBody := { Response := none, Error := none, results := some [] }

/-- A body with two results, used by the tracking claims. -/
def bodyOne : ApiBody := { Response := none, Error := none, results := some [mv1, mv2] }

/-- App state with an empty movie list. -/
def st0 : AppState := { errorMessage := "", movieList := [], isLoading := false }

/-- App state already holding one movie, used to observe list clearing. -/
def st1 : AppState := { errorMessage := "", movieList := [mv1], isLoading := false }

/-- Counterexample to C5 as stated: a successful search fetch with zero
results leaves `errorMessage` empty, so the UI does not transition to Error
with a static message (it renders the empty list); and an HTTP-level failure
leaves the previous movie list in place rather than clearing it. -/
theorem fetchMovies_error_claim_counterexample :
    (fetchMovies "q" (.respond true bodyZero) st0).1.errorMessage = ""
    ∧ (fetchMovies "q" (.respond false bodyZero) st1).1.movieList = [mv1] := by
  exact ⟨rfl, rfl⟩

/-- Claim C5 as amended: an HTTP-level failure sets the static catch message,
leaves the movie list unchanged and makes no tracking call; a successful
fetch with zero results empties the movie list and makes no tracking call,
but leaves the error message empty (no Error state). -/
theorem fetchMovies_http_failure_and_zero_results (query : String) (body : ApiBody)
    (s : AppState) :
    ((fetchMovies query (.respond false body) s).1.errorMessage = staticFetchError
      ∧ (fetchMovies query (.respond false body) s).1.movieList = s.movieList
      ∧ (fetchMovies query (.respond false body) s).2 = [])
    ∧ (body.Response ≠ some "False" → body.results = some [] →
      (fetchMovies query (.respond true body) s).1.errorMessage = ""
      ∧ (fetchMovies query (.respond true body) s).1.movieList = []
      ∧ (fetchMovies query (.respond true body) s).2 = []) := by
  constructor
  · exact ⟨rfl, rfl, rfl⟩
  · intro hR hres
    have hb : (body.Response == some "False") = false := beq_eq_false_iff_ne.mpr hR
    by_cases hq : (query == "") = true
    · refine ⟨?_, ?_, ?_⟩ <;> simp [fetchMovies, fetchTryBody, hb, hres, hq]
    · have hq2 : (query == "") = false := by simpa using hq
      refine ⟨?_, ?_, ?_⟩ <;> simp [fetchMovies, fetchTryBody, hb, hres, hq2]

/-- Witness for the amended C5: concrete HTTP failure and concrete zero-result
success. -/
theorem fetchMovies_http_failure_and_zero_results_witness :
    ((fetchMovies "batman" (.respond false bodyZero) st1).1.errorMessage = staticFetchError
      ∧ (fetchMovies "batman" (.respond false bodyZero) st1).1.movieList = st1.movieList
      ∧ (fetchMovies "batman" (.respond false bodyZero) st1).2 = [])
    ∧ ((fetchMovies "batman" (.respond true bodyZero) st1).1.errorMessage = ""
      ∧ (fetchMovies "batman" (.respond true bodyZero) st1).1.movieList = []
      ∧ (fetchMovies "batman" (.respond true bodyZero) st1).2 = []) := by
  have h := fetchMovies_http_failure_and_zero_results "batman" bodyZero st1
  exact ⟨h.1, h.2 (by decide) rfl⟩

/-- Counterexample to C6 as stated: the initial discovery fetch (empty query)
succeeds with results, replaces the movie list, yet `updateSearchCount` is
never invoked, because the tracking call is guarded by the truthiness of the
query. -/
theorem fetchMovies_tracking_claim_counterexample :
    (fetchMovies "" (.respond true bodyOne) st0).1.movieList = [mv1, mv2]
    ∧ (fetchMovies "" (.respond true bodyOne) st0).2 = [] := by
  exact ⟨rfl, rfl⟩

/-- Claim C6 as amended: for every fetch with a NON-EMPTY query that succeeds
with at least one result, the movie list is replaced by the fetched results
and `updateSearchCount` is invoked exactly once, with the query and the first
result as arguments. -/
theorem fetchMovies_tracks_once (query : String) (body : ApiBody) (s : AppState)
    (m : Movie) (rest : List Movie)
    (hq : query ≠ "")
    (hR : body.Response ≠ some "False")
    (hres : body.results = some (m :: rest)) :
    (fetchMovies query (.respond true body) s).1.movieList = m :: rest
    ∧ (fetchMovies query (.respond true body) s).2 = [(query, m)]
    ∧ (fetchMovies query (.respond true body) s).1.errorMessage = "" := by
  have hb : (body.Response == some "False") = false := beq_eq_false_iff_ne.mpr hR
  have hq2 : (query == "") = false := beq_eq_false_iff_ne.mpr hq
  refine ⟨?_, ?_, ?_⟩ <;> simp [fetchMovies, fetchTryBody, hb, hq2, hres]

/-- Witness for the amended C6: a search for batman with two results tracks
exactly one call with the first result. -/
theorem fetchMovies_tracks_once_witness :
    (fetchMovies "batman" (.respond true bodyOne) st0).1.movieList = [mv1, mv2]
    ∧ (fetchMovies "batman" (.respond true bodyOne) st0).2 = [("batman", mv1)]
    ∧ (fetchMovies "batman" (.respond true bodyOne) st0).1.errorMessage = "" :=
  fetchMovies_tracks_once "batman" bodyOne st0 mv1 [mv2] (by decide) (by decide) rfl

end MovieApp
